import Mathlib

/-!
Shallow embedding of `src/app/components/workbench/Workbench.client.tsx`
(the `Workbench` React component of bolt.free-download-zip-live-folder-sync).

The component owns local UI state (`isSyncing`, `lastSync`, a cached
`directoryRef` handle, `isSyncFeatureAvailable`) and delegates operations to
the external `workbenchStore`.  We embed:

- `handleSyncFiles` as a pure function over an explicit state together with an
  environment describing the outcome of the two awaited operations (the native
  directory picker and the store sync), producing a trace of observable events
  and an explicit "exception escaped to the caller" channel (JS try/catch
  semantics made explicit);
- the `files` effect, the `hasPreview` effect, `setSelectedView`, and
  `onFileSave` similarly;
- the render function as a tree-producing function gated on `chatStarted`;
- a small-step interleaving machine for the asynchronous sync calls, used for
  the in-flight-sync and handle-stability invariants.
-/

/-- View type of the workbench panel, from `WorkbenchViewType`. -/
inductive WorkbenchViewType
  | code
  | preview
deriving DecidableEq, Repr

/-- Opaque `FileSystemDirectoryHandle`, identified by a number. -/
abbrev DirHandle := Nat

/-- File map passed to `workbenchStore.setDocuments`. -/
abbrev FileMap := List (String × String)

/-- Observable events emitted by the component handlers, in program order:
state setters, the native directory picker, calls into the store and toasts. -/
inductive Ev
  | setIsSyncing (b : Bool)
  | showPicker
  | setDirectoryRef (h : DirHandle)
  | storeSyncFiles (h : DirHandle)
  | setLastSync (t : Nat)
  | logError
  | setDocuments (files : FileMap)
  | saveCurrentDocument
  | toastError (msg : String)
deriving DecidableEq, Repr

/-- Local component state touched by `handleSyncFiles`: the `isSyncing`
useState cell, the `directoryRef` useRef cell and the `lastSync` useState cell
(`false` in the source becomes `none`). -/
structure SyncState where
  isSyncing : Bool
  directoryRef : Option DirHandle
  lastSync : Option Nat
deriving DecidableEq, Repr

/-- Environment of one `handleSyncFiles` run: the result of
`window.showDirectoryPicker()` (may throw, e.g. cancelled by the user), the
result of `workbenchStore.syncFiles` (may throw on I/O error), and the value
`new Date().getTime()` would return at the completion point. -/
structure SyncEnv where
  pickerResult : Except Unit DirHandle
  storeSyncResult : Except Unit Unit
  now : Nat

/-- Result of a `handleSyncFiles` run: the final local state, the event trace,
and whether an exception escaped to the caller (`none` means normal return). -/
structure SyncRun where
  state : SyncState
  events : List Ev
  thrown : Option Unit
deriving Repr

/-- The part of the `try` block after `directoryHandle` is available:
`directoryRef.current = directoryHandle; await workbenchStore.syncFiles(...)`,
then `setLastSync(new Date().getTime())` on success; the `catch` logs the
error and the `finally` runs `setIsSyncing(false)` on both paths. -/
def syncWithHandle (h : DirHandle) (env : SyncEnv) (s : SyncState)
    (pre : List Ev) : SyncRun :=
  let s1 : SyncState := { s with directoryRef := some h }
  let pre1 := pre ++ [Ev.setDirectoryRef h, Ev.storeSyncFiles h]
  match env.storeSyncResult with
  | Except.ok _ =>
      { state := { s1 with lastSync := some env.now, isSyncing := false },
        events := pre1 ++ [Ev.setLastSync env.now, Ev.setIsSyncing false],
        thrown := none }
  | Except.error _ =>
      { state := { s1 with isSyncing := false },
        events := pre1 ++ [Ev.logError, Ev.setIsSyncing false],
        thrown := none }

/-- Embedding of `handleSyncFiles(e?)`.  `e = true` means a mouse event was
passed (user-triggered click), `e = false` means the automatic call from the
`files` effect.  Mirrors: the `if (directoryRef.current || e)` guard,
`setIsSyncing(true)`, `directoryRef.current || await window.showDirectoryPicker()`
(the picker is only consulted when no handle is cached), and the
try/catch/finally around the store sync. -/
def handleSyncFiles (e : Bool) (env : SyncEnv) (s : SyncState) : SyncRun :=
  if s.directoryRef.isSome || e then
    let s1 : SyncState := { s with isSyncing := true }
    let pre := [Ev.setIsSyncing true]
    match s.directoryRef with
    | some h => syncWithHandle h env s1 pre
    | none =>
        match env.pickerResult with
        | Except.ok h => syncWithHandle h env s1 (pre ++ [Ev.showPicker])
        | Except.error _ =>
            { state := { s1 with isSyncing := false },
              events := pre ++ [Ev.showPicker, Ev.logError, Ev.setIsSyncing false],
              thrown := none }
  else
    { state := s, events := [], thrown := none }

/-- Embedding of the `files` effect:
`workbenchStore.setDocuments(files); handleSyncFiles();` — note the call is
made with no event argument. -/
def filesEffect (files : FileMap) (env : SyncEnv) (s : SyncState) : SyncRun :=
  let r := handleSyncFiles false env s
  { r with events := Ev.setDocuments files :: r.events }

/-- Embedding of `onFileSave`:
`workbenchStore.saveCurrentDocument().catch(() => toast.error(...))`.
The save is invoked exactly once; on rejection a single toast is emitted. -/
def onFileSave (saveResult : Except Unit Unit) : List Ev :=
  match saveResult with
  | Except.ok _ => [Ev.saveCurrentDocument]
  | Except.error _ => [Ev.saveCurrentDocument, Ev.toastError "Failed to update file content"]

/-- Projection of the `setIsSyncing` writes out of an event trace. -/
def syncFlagWrites (evs : List Ev) : List Bool :=
  evs.filterMap fun ev =>
    match ev with
    | Ev.setIsSyncing b => some b
    | _ => none

/-- Panel-level state for the view-mode machinery: the store's previews list
(entries opaque, identified by numbers) and the store's `currentView`. -/
structure PanelState where
  previews : List Nat
  view : WorkbenchViewType
deriving DecidableEq, Repr

/-- Embedding of the `computed(workbenchStore.previews, previews.length > 0)`
derivation feeding the `hasPreview` effect. -/
def hasPreview (previews : List Nat) : Bool := previews.length > 0

/-- Embedding of `setSelectedView`: writes the view to the store. -/
def setSelectedView (v : WorkbenchViewType) (s : PanelState) : PanelState :=
  { s with view := v }

/-- Body of the `useEffect` on `[hasPreview]`:
`if (hasPreview) setSelectedView('preview')`. -/
def previewEffectBody (hp : Bool) (s : PanelState) : PanelState :=
  if hp then setSelectedView WorkbenchViewType.preview s else s

/-- One update of the previews list.  React re-runs the effect only when its
dependency `hasPreview` changed between renders, so the body fires exactly on
changes of `hasPreview`. -/
def previewsChanged (newPreviews : List Nat) (s : PanelState) : PanelState :=
  let s1 : PanelState := { s with previews := newPreviews }
  if hasPreview newPreviews = hasPreview s.previews then s1
  else previewEffectBody (hasPreview newPreviews) s1

/-- Render tree nodes, capturing the elements whose presence or attributes the
spec talks about. -/
inductive RNode
  | text (s : String)
  | motionDiv (animate : String) (children : List RNode)
  | div (children : List RNode)
  | slider (selected : WorkbenchViewType)
  | iconButton (icon : String)
  | panelHeaderButton (disabled : Bool) (children : List RNode)
  | spinner
  | cloudIcon
  | terminalIcon
  | view (x : String) (child : RNode)
  | editorPanel
  | preview
deriving Repr

/-- Inputs of one render of `Workbench`: the two props and the observed local
and store state. -/
structure RenderInput where
  chatStarted : Bool
  isStreaming : Bool
  showWorkbench : Bool
  selectedView : WorkbenchViewType
  isSyncing : Bool
  isSyncFeatureAvailable : Bool
  lastSync : Option Nat
  now : Nat

/-- The `label` computation for a recorded `lastSync` timestamp:
`seconds = floor((now - lastSync) / 1000)`, minutes and remaining seconds. -/
def lastSyncLabel (now lastSync : Nat) : String :=
  let seconds := (now - lastSync) / 1000
  let minutes := seconds / 60
  let remainingSeconds := seconds % 60
  (if minutes > 0 then toString minutes ++ "m" else "") ++ " "
    ++ toString remainingSeconds ++ "s ago"

/-- The `syncLabel` computation of the source. -/
def syncLabel (i : RenderInput) : String :=
  if i.isSyncFeatureAvailable then
    if i.isSyncing then "Syncing..."
    else
      match i.lastSync with
      | some t => "Synced " ++ lastSyncLabel i.now t
      | none => "Select sync folder"
  else "Live Sync in Chrome, Edge, Opera"

/-- Embedding of the component's return value: `chatStarted && (<motion.div ...>)`.
A falsy `chatStarted` renders nothing (`none`); otherwise the panel tree. -/
def renderWorkbench (i : RenderInput) : Option RNode :=
  if i.chatStarted then
    some (RNode.motionDiv (if i.showWorkbench then "open" else "closed")
      [RNode.div
        [RNode.div
          [RNode.div
            [RNode.slider i.selectedView,
             RNode.iconButton "i-ph-download-simple",
             RNode.panelHeaderButton (!i.isSyncFeatureAvailable || i.isSyncing)
               [(if i.isSyncing then RNode.spinner else RNode.cloudIcon),
                RNode.text (syncLabel i)],
             RNode.panelHeaderButton false
               [RNode.terminalIcon, RNode.text "Toggle Terminal"],
             RNode.iconButton "i-ph:x-circle"],
           RNode.div
            [RNode.view (if i.selectedView = WorkbenchViewType.code then "0" else "-100%")
               RNode.editorPanel,
             RNode.view (if i.selectedView = WorkbenchViewType.preview then "0" else "100%")
               RNode.preview]]]])
  else none

/-- Phase of one asynchronous `handleSyncFiles` invocation that is suspended
at one of its two `await` points. -/
inductive TaskPhase
  | awaitingPicker
  | awaitingSync
deriving DecidableEq, Repr

/-- State of the interleaving machine: the `isSyncing` cell, the
`directoryRef` cell, and the multiset (as a list) of suspended sync tasks. -/
structure MState where
  isSyncing : Bool
  directoryRef : Option DirHandle
  tasks : List TaskPhase
deriving DecidableEq, Repr

/-- Number of `workbenchStore.syncFiles` calls currently in flight. -/
def syncsInFlight (s : MState) : Nat :=
  (s.tasks.filter (fun t => t = TaskPhase.awaitingSync)).length

/-- User-driven steps of the machine.  A click runs `handleSyncFiles(e)` with
an event; the sync button carries `disabled={!isSyncFeatureAvailable || isSyncing}`,
so a click step requires `isSyncing = false`.  With a cached handle the code
runs synchronously up to `await workbenchStore.syncFiles`, creating an
`awaitingSync` task; with no cached handle it suspends at
`await window.showDirectoryPicker()`.  Each suspended task may later resolve:
a successful picker writes the handle into `directoryRef` and proceeds to the
store sync; a rejected picker and any completed store sync run the
`catch`/`finally`, clearing `isSyncing`. -/
inductive StepU : MState → MState → Prop
  | clickCached (s : MState) (h : DirHandle) :
      s.isSyncing = false → s.directoryRef = some h →
      StepU s { s with isSyncing := true,
                       tasks := TaskPhase.awaitingSync :: s.tasks }
  | clickPicker (s : MState) :
      s.isSyncing = false → s.directoryRef = none →
      StepU s { s with isSyncing := true,
                       tasks := TaskPhase.awaitingPicker :: s.tasks }
  | pickerOk (s : MState) (h : DirHandle) (l1 l2 : List TaskPhase) :
      s.tasks = l1 ++ TaskPhase.awaitingPicker :: l2 →
      StepU s { s with directoryRef := some h,
                       tasks := l1 ++ TaskPhase.awaitingSync :: l2 }
  | pickerErr (s : MState) (l1 l2 : List TaskPhase) :
      s.tasks = l1 ++ TaskPhase.awaitingPicker :: l2 →
      StepU s { s with isSyncing := false, tasks := l1 ++ l2 }
  | syncDone (s : MState) (l1 l2 : List TaskPhase) :
      s.tasks = l1 ++ TaskPhase.awaitingSync :: l2 →
      StepU s { s with isSyncing := false, tasks := l1 ++ l2 }

/-- All steps of the machine: the user-driven ones plus the automatic
`files`-effect trigger, which calls `handleSyncFiles()` with no event and no
guard: with a cached handle it starts a sync even while one is in flight;
with no cached handle it is a no-op. -/
inductive MStep : MState → MState → Prop
  | user {s t : MState} : StepU s t → MStep s t
  | autoCached (s : MState) (h : DirHandle) :
      s.directoryRef = some h →
      MStep s { s with isSyncing := true,
                       tasks := TaskPhase.awaitingSync :: s.tasks }
  | autoNone (s : MState) :
      s.directoryRef = none → MStep s s

/-- Reachability under all steps. -/
inductive MReach (s0 : MState) : MState → Prop
  | refl : MReach s0 s0
  | step {s t : MState} : MReach s0 s → MStep s t → MReach s0 t

/-- Reachability under user-driven steps only. -/
inductive ReachU (s0 : MState) : MState → Prop
  | refl : ReachU s0 s0
  | step {s t : MState} : ReachU s0 s → StepU s t → ReachU s0 t

/-- Invariant of the user-only machine: at most one suspended task, and none
while `isSyncing` is false. -/
def MInv (s : MState) : Prop :=
  s.tasks.length ≤ 1 ∧ (s.isSyncing = false → s.tasks = [])

/-- The user-only invariant is preserved by every user-driven step. -/
theorem minv_stepU {s t : MState} (hs : MInv s) (hst : StepU s t) : MInv t := by
  obtain ⟨hlen, hidle⟩ := hs
  cases hst with
  | clickCached h hsync href =>
      have he : s.tasks = [] := hidle hsync
      constructor
      · simp [he]
      · intro hfalse; simp at hfalse
  | clickPicker hsync href =>
      have he : s.tasks = [] := hidle hsync
      constructor
      · simp [he]
      · intro hfalse; simp at hfalse
  | pickerOk h l1 l2 htasks =>
      have hl : l1 = [] ∧ l2 = [] := by
        rw [htasks] at hlen
        simp [List.length_append] at hlen
        have h1 : l1.length = 0 := by omega
        have h2 : l2.length = 0 := by omega
        exact ⟨List.length_eq_zero.mp h1, List.length_eq_zero.mp h2⟩
      obtain ⟨h1, h2⟩ := hl
      subst h1; subst h2
      constructor
      · simp
      · intro hfalse
        have := hidle hfalse
        rw [htasks] at this
        simp at this
  | pickerErr l1 l2 htasks =>
      have hlen2 : (l1 ++ l2).length ≤ 1 := by
        rw [htasks] at hlen
        simp [List.length_append] at hlen ⊢
        omega
      exact ⟨hlen2, fun _ => by
        rw [htasks] at hlen
        simp [List.length_append] at hlen
        have h1 : l1.length = 0 := by omega
        have h2 : l2.length = 0 := by omega
        simp [List.length_eq_zero.mp h1, List.length_eq_zero.mp h2]⟩
  | syncDone l1 l2 htasks =>
      have hlen2 : (l1 ++ l2).length ≤ 1 := by
        rw [htasks] at hlen
        simp [List.length_append] at hlen ⊢
        omega
      exact ⟨hlen2, fun _ => by
        rw [htasks] at hlen
        simp [List.length_append] at hlen
        have h1 : l1.length = 0 := by omega
        have h2 : l2.length = 0 := by omega
        simp [List.length_eq_zero.mp h1, List.length_eq_zero.mp h2]⟩

/-- Every run of `handleSyncFiles` returns normally: the catch-all `catch`
swallows both picker and store-sync errors. -/
theorem handleSyncFiles_thrown_none (e : Bool) (env : SyncEnv) (s : SyncState) :
    (handleSyncFiles e env s).thrown = none := by
  unfold handleSyncFiles syncWithHandle
  cases hd : s.directoryRef with
  | none =>
      cases hp : env.pickerResult with
      | ok h =>
          cases he : e <;> cases hr : env.storeSyncResult <;> simp [hd, hp, hr, he]
      | error u =>
          cases he : e <;> simp [hd, hp, he]
  | some h =>
      cases hr : env.storeSyncResult <;> simp [hd, hr]

/-- Whenever the guard fires (a cached handle or a user event), the `finally`
clears `isSyncing` on every path. -/
theorem handleSyncFiles_clears_isSyncing (e : Bool) (env : SyncEnv) (s : SyncState)
    (htrig : s.directoryRef.isSome = true ∨ e = true) :
    (handleSyncFiles e env s).state.isSyncing = false := by
  unfold handleSyncFiles syncWithHandle
  cases hd : s.directoryRef with
  | none =>
      have he : e = true := by
        rcases htrig with h | h
        · rw [hd] at h; simp at h
        · exact h
      cases hp : env.pickerResult with
      | ok h => cases hr : env.storeSyncResult <;> simp [hd, hp, hr, he]
      | error u => simp [hd, hp, he]
  | some h =>
      cases hr : env.storeSyncResult <;> simp [hd, hr]

/-- C1: when the store sync (or the directory-handle acquisition) fails, the
error is logged and swallowed: no exception escapes to the caller, the
last-sync timestamp is left unchanged, and `isSyncing` is cleared back to
`false` — and the clearing holds for every outcome, success included, because
it lives in the `finally` cleanup. -/
theorem c1_sync_failure_logged_and_swallowed (e : Bool) (env : SyncEnv) (s : SyncState)
    (htrig : s.directoryRef.isSome = true ∨ e = true)
    (hfail : env.storeSyncResult = Except.error () ∨
      (s.directoryRef = none ∧ env.pickerResult = Except.error ())) :
    (handleSyncFiles e env s).thrown = none ∧
    (handleSyncFiles e env s).state.lastSync = s.lastSync ∧
    (handleSyncFiles e env s).state.isSyncing = false ∧
    Ev.logError ∈ (handleSyncFiles e env s).events ∧
    (∀ env2 : SyncEnv, (handleSyncFiles e env2 s).state.isSyncing = false) := by
  refine ⟨handleSyncFiles_thrown_none e env s, ?_, ?_, ?_,
    fun env2 => handleSyncFiles_clears_isSyncing e env2 s htrig⟩ <;>
  · unfold handleSyncFiles syncWithHandle
    cases hd : s.directoryRef with
    | none =>
        have he : e = true := by
          rcases htrig with h | h
          · rw [hd] at h; simp at h
          · exact h
        rcases hfail with hr | ⟨_, hp⟩
        · cases hp : env.pickerResult with
          | ok h => simp [hd, hp, hr, he]
          | error u => simp [hd, hp, he]
        · simp [hd, hp, he]
    | some h =>
        rcases hfail with hr | ⟨hnone, _⟩
        · simp [hd, hr]
        · rw [hd] at hnone; simp at hnone

/-- Witness for C1: with a cached handle, a user event and a failing store
sync, the run logs, leaves the timestamp and clears the flag. -/
theorem c1_witness :
    (handleSyncFiles true ⟨Except.ok 7, Except.error (), 50⟩
        ⟨false, some 3, some 20⟩).thrown = none ∧
    (handleSyncFiles true ⟨Except.ok 7, Except.error (), 50⟩
        ⟨false, some 3, some 20⟩).state.lastSync = some 20 ∧
    (handleSyncFiles true ⟨Except.ok 7, Except.error (), 50⟩
        ⟨false, some 3, some 20⟩).state.isSyncing = false ∧
    Ev.logError ∈ (handleSyncFiles true ⟨Except.ok 7, Except.error (), 50⟩
        ⟨false, some 3, some 20⟩).events := by
  have h := c1_sync_failure_logged_and_swallowed true
    ⟨Except.ok 7, Except.error (), 50⟩ ⟨false, some 3, some 20⟩
    (Or.inl rfl) (Or.inl rfl)
  exact ⟨h.1, h.2.1, h.2.2.1, h.2.2.2.1⟩

/-- C2: an automatic (no-event) call with no cached handle is a complete
no-op: the state is unchanged and no event is emitted, so `isSyncing` stays
`false`, no picker is shown and the store sync is not invoked. -/
theorem c2_auto_without_handle_noop (env : SyncEnv) (s : SyncState)
    (hnone : s.directoryRef = none) :
    handleSyncFiles false env s = ⟨s, [], none⟩ := by
  unfold handleSyncFiles
  simp [hnone]

/-- Witness for C2 at a concrete state. -/
theorem c2_witness :
    handleSyncFiles false ⟨Except.ok 7, Except.ok (), 50⟩ ⟨false, none, none⟩ =
      ⟨⟨false, none, none⟩, [], none⟩ :=
  c2_auto_without_handle_noop ⟨Except.ok 7, Except.ok (), 50⟩ ⟨false, none, none⟩ rfl

/-- C5: a user-triggered run whose store sync succeeds flips `isSyncing` from
`false` to `true` and back to `false`, and records a last-sync timestamp taken
from the clock at completion, strictly greater than any clock value observed
before the call (the clock having advanced across the awaited sync). -/
theorem c5_user_sync_success (env : SyncEnv) (s : SyncState) (tBefore : Nat)
    (hidle : s.isSyncing = false)
    (hok : env.storeSyncResult = Except.ok ())
    (hacq : s.directoryRef.isSome = true ∨ ∃ h, env.pickerResult = Except.ok h)
    (hclock : tBefore < env.now) :
    s.isSyncing = false ∧
    syncFlagWrites (handleSyncFiles true env s).events = [true, false] ∧
    (handleSyncFiles true env s).state.isSyncing = false ∧
    ∃ t, (handleSyncFiles true env s).state.lastSync = some t ∧ tBefore < t := by
  refine ⟨hidle, ?_⟩
  unfold handleSyncFiles syncWithHandle
  cases hd : s.directoryRef with
  | some h =>
      refine ⟨?_, ?_, env.now, ?_, hclock⟩ <;> simp [hd, hok, syncFlagWrites]
  | none =>
      obtain ⟨h, hp⟩ : ∃ h, env.pickerResult = Except.ok h := by
        rcases hacq with hsome | hex
        · rw [hd] at hsome; simp at hsome
        · exact hex
      refine ⟨?_, ?_, env.now, ?_, hclock⟩ <;> simp [hd, hp, hok, syncFlagWrites]

/-- Witness for C5 at a concrete environment and state. -/
theorem c5_witness :
    syncFlagWrites (handleSyncFiles true ⟨Except.ok 7, Except.ok (), 120⟩
        ⟨false, some 3, none⟩).events = [true, false] ∧
    ∃ t, (handleSyncFiles true ⟨Except.ok 7, Except.ok (), 120⟩
        ⟨false, some 3, none⟩).state.lastSync = some t ∧ 100 < t := by
  have h := c5_user_sync_success ⟨Except.ok 7, Except.ok (), 120⟩
    ⟨false, some 3, none⟩ 100 rfl rfl (Or.inl rfl) (by decide)
  exact ⟨h.2.1, h.2.2.2⟩

/-- C3: the `hasPreview` effect forces the view to `preview` exactly on the
empty-to-non-empty edge of the previews list; on the edge to empty the view is
left alone. -/
theorem c3_preview_arrival_forces_preview (v : WorkbenchViewType) (newP oldP : List Nat)
    (hne : newP ≠ []) :
    (previewsChanged newP ⟨[], v⟩).view = WorkbenchViewType.preview ∧
    (previewsChanged [] ⟨oldP, v⟩).view = v := by
  constructor
  · have hlen : 0 < newP.length := List.length_pos.mpr hne
    simp [previewsChanged, hasPreview, previewEffectBody, setSelectedView, hlen]
  · by_cases hold : oldP.length = 0
    · simp [previewsChanged, hasPreview, hold]
    · have : 0 < oldP.length := Nat.pos_of_ne_zero hold
      simp [previewsChanged, hasPreview, previewEffectBody, this]

/-- Witness for C3: a single preview arriving over the `code` view. -/
theorem c3_witness :
    (previewsChanged [5] ⟨[], WorkbenchViewType.code⟩).view = WorkbenchViewType.preview ∧
    (previewsChanged [] ⟨[5], WorkbenchViewType.code⟩).view = WorkbenchViewType.code :=
  c3_preview_arrival_forces_preview WorkbenchViewType.code [5] [5] (by decide)

/-- C4: selecting the `code` view while previews are non-empty is sticky: a
subsequent previews update that stays non-empty does not re-run the forcing
effect, so the view remains `code`. -/
theorem c4_manual_code_view_sticky (s : PanelState) (newP : List Nat)
    (hold : hasPreview s.previews = true) (hnew : hasPreview newP = true) :
    (previewsChanged newP (setSelectedView WorkbenchViewType.code s)).view =
      WorkbenchViewType.code := by
  simp [previewsChanged, setSelectedView, hasPreview] at *
  simp [hold, hnew]

/-- Witness for C4: with one preview live, switching to `code` and updating the
previews list to another non-empty value leaves the view at `code`. -/
theorem c4_witness :
    (previewsChanged [5, 6] (setSelectedView WorkbenchViewType.code
        ⟨[5], WorkbenchViewType.preview⟩)).view = WorkbenchViewType.code :=
  c4_manual_code_view_sticky ⟨[5], WorkbenchViewType.preview⟩ [5, 6] rfl rfl

/-- C7: with `chatStarted` false the component renders nothing at all, for
every combination of the remaining props and observed state. -/
theorem c7_no_render_without_chat (i : RenderInput) (hc : i.chatStarted = false) :
    renderWorkbench i = none := by
  unfold renderWorkbench
  simp [hc]

/-- Witness for C7 at a concrete render input. -/
theorem c7_witness :
    renderWorkbench ⟨false, true, true, WorkbenchViewType.preview, true, true,
      some 10, 20⟩ = none :=
  c7_no_render_without_chat
    ⟨false, true, true, WorkbenchViewType.preview, true, true, some 10, 20⟩ rfl

/-- C8: every call of `onFileSave` invokes the store save exactly once (no
automatic retry); a rejected save emits exactly one error toast, a successful
save emits none. -/
theorem c8_save_failure_single_toast (r : Except Unit Unit) :
    (onFileSave r).count Ev.saveCurrentDocument = 1 ∧
    (r = Except.error () →
      (onFileSave r).count (Ev.toastError "Failed to update file content") = 1) ∧
    (r = Except.ok () → ∀ m, Ev.toastError m ∉ onFileSave r) := by
  cases r with
  | ok u =>
      cases u
      refine ⟨by decide, ?_, ?_⟩
      · intro h; cases h
      · intro _ m; simp [onFileSave]
  | error u =>
      cases u
      refine ⟨by decide, fun _ => by decide, ?_⟩
      intro h; cases h

/-- Witness for C8 at the failing save. -/
theorem c8_witness :
    (onFileSave (Except.error ())).count Ev.saveCurrentDocument = 1 ∧
    (onFileSave (Except.error ())).count
      (Ev.toastError "Failed to update file content") = 1 := by
  have h := c8_save_failure_single_toast (Except.error ())
  exact ⟨h.1, h.2.1 rfl⟩

/-- C9: on every external file-set change the effect first propagates the
files to the store and then attempts a sync: the trace starts with
`setDocuments`, the picker is never shown on this path, with a cached handle
the store sync is invoked on it, and with no cached handle the rest is a
no-op. -/
theorem c9_files_effect_propagates_then_syncs (files : FileMap) (env : SyncEnv)
    (s : SyncState) :
    (filesEffect files env s).events.head? = some (Ev.setDocuments files) ∧
    Ev.showPicker ∉ (filesEffect files env s).events ∧
    (∀ h, s.directoryRef = some h →
      Ev.storeSyncFiles h ∈ (filesEffect files env s).events) ∧
    (s.directoryRef = none →
      (filesEffect files env s).state = s ∧
      (filesEffect files env s).events = [Ev.setDocuments files]) := by
  unfold filesEffect handleSyncFiles syncWithHandle
  cases hd : s.directoryRef with
  | none => simp [hd]
  | some h => cases hr : env.storeSyncResult <;> simp [hd, hr]

/-- Witness for C9 with a cached handle and a succeeding sync. -/
theorem c9_witness :
    (filesEffect [("a.txt", "hi")] ⟨Except.ok 7, Except.ok (), 40⟩
        ⟨false, some 3, none⟩).events.head? =
      some (Ev.setDocuments [("a.txt", "hi")]) ∧
    Ev.storeSyncFiles 3 ∈ (filesEffect [("a.txt", "hi")] ⟨Except.ok 7, Except.ok (), 40⟩
        ⟨false, some 3, none⟩).events := by
  have h := c9_files_effect_propagates_then_syncs [("a.txt", "hi")]
    ⟨Except.ok 7, Except.ok (), 40⟩ ⟨false, some 3, none⟩
  exact ⟨h.1, h.2.2.1 3 rfl⟩

/-- C6 counterexample: from an idle state with a cached handle, two automatic
`files`-effect triggers in a row (the first sync still awaited) put two store
sync calls in flight at once — `handleSyncFiles` has no `isSyncing` guard, and
only the button, not the effect, is disabled while syncing.  So it is false
that every state reachable by interleaving user clicks and automatic triggers
has at most one sync in flight. -/
theorem c6_counterexample :
    ¬ ∀ s : MState, MReach ⟨false, some 1, []⟩ s → syncsInFlight s ≤ 1 := by
  intro hall
  have h1 : MStep ⟨false, some 1, []⟩ ⟨true, some 1, [TaskPhase.awaitingSync]⟩ :=
    MStep.autoCached ⟨false, some 1, []⟩ 1 rfl
  have h2 : MStep ⟨true, some 1, [TaskPhase.awaitingSync]⟩
      ⟨true, some 1, [TaskPhase.awaitingSync, TaskPhase.awaitingSync]⟩ :=
    MStep.autoCached ⟨true, some 1, [TaskPhase.awaitingSync]⟩ 1 rfl
  have hr : MReach ⟨false, some 1, []⟩
      ⟨true, some 1, [TaskPhase.awaitingSync, TaskPhase.awaitingSync]⟩ :=
    MReach.step (MReach.step MReach.refl h1) h2
  exact absurd (hall _ hr) (by decide)

/-- C6 amended: under user clicks alone the single-flight invariant does hold,
because the sync button is disabled while `isSyncing` is true: from any state
satisfying the idle invariant, every state reachable by user-driven steps has
at most one store sync in flight. -/
theorem c6_amended_user_clicks_single_flight (s0 s : MState) (h0 : MInv s0)
    (hr : ReachU s0 s) : syncsInFlight s ≤ 1 := by
  have hinv : MInv s := by
    induction hr with
    | refl => exact h0
    | step _ hst ih => exact minv_stepU ih hst
  calc syncsInFlight s ≤ s.tasks.length := List.length_filter_le _ _
    _ ≤ 1 := hinv.1

/-- Witness for the amended C6: one user click from idle leaves exactly one
sync in flight. -/
theorem c6_amended_witness :
    syncsInFlight ⟨true, some 2, [TaskPhase.awaitingSync]⟩ ≤ 1 := by
  have hstep : StepU ⟨false, some 2, []⟩ ⟨true, some 2, [TaskPhase.awaitingSync]⟩ :=
    StepU.clickCached ⟨false, some 2, []⟩ 2 rfl rfl
  exact c6_amended_user_clicks_single_flight ⟨false, some 2, []⟩ _
    ⟨by decide, fun _ => rfl⟩ (ReachU.step ReachU.refl hstep)

/-- Every machine step preserves a cached directory handle: once
`directoryRef` holds `h` (and no picker is pending), it holds `h` forever and
no picker task is ever created again. -/
theorem stable_handle_mstep {h : DirHandle} {s t : MState} (hst : MStep s t)
    (href : s.directoryRef = some h)
    (hnp : TaskPhase.awaitingPicker ∉ s.tasks) :
    t.directoryRef = some h ∧ TaskPhase.awaitingPicker ∉ t.tasks := by
  cases hst with
  | user hu =>
      cases hu with
      | clickCached h2 hsync href2 =>
          exact ⟨href, by simp [hnp]⟩
      | clickPicker hsync href2 =>
          rw [href] at href2; cases href2
      | pickerOk h2 l1 l2 htasks =>
          rw [htasks] at hnp; simp at hnp
      | pickerErr l1 l2 htasks =>
          rw [htasks] at hnp; simp at hnp
      | syncDone l1 l2 htasks =>
          refine ⟨href, ?_⟩
          rw [htasks] at hnp
          simp at hnp ⊢
          tauto
  | autoCached h2 href2 =>
      exact ⟨href, by simp [hnp]⟩
  | autoNone href2 =>
      rw [href] at href2; cases href2

/-- C10: a cached directory handle is never cleared or replaced.  At the
machine level, every state reachable from a state with `directoryRef = h` (and
no pending picker) still has `directoryRef = h` and never holds a pending
picker, so the picker is never shown again.  At the handler level, any run
with a cached handle keeps the handle, shows no picker, passes the cached
handle to the store sync, and on a failing sync leaves the recorded last-sync
timestamp unchanged. -/
theorem c10_cached_handle_stable (h : DirHandle) :
    (∀ s0 s : MState, MReach s0 s → s0.directoryRef = some h →
        TaskPhase.awaitingPicker ∉ s0.tasks →
        s.directoryRef = some h ∧ TaskPhase.awaitingPicker ∉ s.tasks) ∧
    (∀ (e : Bool) (env : SyncEnv) (s : SyncState), s.directoryRef = some h →
        (handleSyncFiles e env s).state.directoryRef = some h ∧
        Ev.showPicker ∉ (handleSyncFiles e env s).events ∧
        Ev.storeSyncFiles h ∈ (handleSyncFiles e env s).events ∧
        (env.storeSyncResult = Except.error () →
          (handleSyncFiles e env s).state.lastSync = s.lastSync)) := by
  constructor
  · intro s0 s hr href hnp
    induction hr with
    | refl => exact ⟨href, hnp⟩
    | step _ hst ih => exact stable_handle_mstep hst ih.1 ih.2
  · intro e env s hd
    unfold handleSyncFiles syncWithHandle
    cases hr : env.storeSyncResult <;> simp [hd, hr]

/-- Witness for C10: the reachability part at the reflexive trace, and the
handler part at a concrete failing run over a cached handle. -/
theorem c10_witness :
    (⟨false, some 3, []⟩ : MState).directoryRef = some 3 ∧
    (handleSyncFiles false ⟨Except.ok 7, Except.error (), 50⟩
        ⟨false, some 3, some 20⟩).state.directoryRef = some 3 ∧
    Ev.showPicker ∉ (handleSyncFiles false ⟨Except.ok 7, Except.error (), 50⟩
        ⟨false, some 3, some 20⟩).events ∧
    (handleSyncFiles false ⟨Except.ok 7, Except.error (), 50⟩
        ⟨false, some 3, some 20⟩).state.lastSync = some 20 := by
  have h := c10_cached_handle_stable 3
  have hm := (h.1 ⟨false, some 3, []⟩ ⟨false, some 3, []⟩ MReach.refl rfl (by simp)).1
  have hf := h.2 false ⟨Except.ok 7, Except.error (), 50⟩ ⟨false, some 3, some 20⟩ rfl
  exact ⟨hm, hf.1, hf.2.1, hf.2.2.2 rfl⟩
